import Mathlib

/-!
# Volna transit-card plugin (`volna.c`)

A shallow embedding of `applications/main/nfc/plugins/supported_cards/volna.c`:
the static key table, `volna_verify`, `volna_read` and `volna_parse`.

Conventions.
* A `uint8_t` is a `Fin 256`; wider machine integers are natural numbers reduced
  modulo `2 ^ w` at the places where the C code stores them.  The `int`
  intermediate values of the shift/or expressions are represented by their
  32-bit two's-complement bit patterns.
* The radio transport (`Nfc*`) is an oracle: a record of answer functions.  Every
  function that talks to the transport also returns the list of requests it made.
* A read past the end of the static key table is a fault, modelled by `none`.
-/

namespace Volna

/-! ## Collaborator types and helpers (declared outside the plugin source) -/

/-- A `uint8_t`. -/
abbrev Byte := Fin 256

/-- Modelled from the spec: the `CardVariant` enum (`MfClassicType` of
`mf_classic.h`), identifying card capacity and layout. -/
inductive MfClassicType where
  | MfClassicTypeMini
  | MfClassicType1k
  | MfClassicType4k
  deriving DecidableEq, Repr

/-- Modelled from the spec: the transport status (`MfClassicError` of
`mf_classic.h`); `MfClassicErrorNone` is success, the others are the
distinguishable failure kinds (key rejected, timeout, transport faults). -/
inductive MfClassicError where
  | MfClassicErrorNone
  | MfClassicErrorNotPresent
  | MfClassicErrorProtocol
  | MfClassicErrorAuth
  | MfClassicErrorPartialRead
  | MfClassicErrorTimeout
  deriving DecidableEq, Repr

/-- Modelled from the spec: the key type of an authentication request,
`keyType ∈ {A, B}` (`MfClassicKeyType` of `mf_classic.h`). -/
inductive MfClassicKeyType where
  | MfClassicKeyTypeA
  | MfClassicKeyTypeB
  deriving DecidableEq, Repr

open MfClassicType MfClassicError MfClassicKeyType

/-- Modelled from the spec: a 48-bit sector key held as bytes
(`MfClassicKey` of `mf_classic.h`, `uint8_t data[6]`). -/
structure MfClassicKey where
  data : List Byte
  deriving DecidableEq, Repr

/-- The value of `sizeof(MfClassicKey)` and of `COUNT_OF(key.data)`. -/
def MF_CLASSIC_KEY_SIZE : Nat := 6

/-- The value of `MF_CLASSIC_TOTAL_SECTORS_MAX`, the length of the per-sector key arrays. -/
def MF_CLASSIC_TOTAL_SECTORS_MAX : Nat := 40

/-- Modelled from the spec: the `KeySet` handed to the bulk read
(`MfClassicDeviceKeys` of `mf_classic.h`): per sector a key A and a key B slot,
and two 64-bit masks whose bit `i` says that the slot of sector `i` is provided. -/
structure MfClassicDeviceKeys where
  key_a_mask : Nat
  key_a : List MfClassicKey
  key_b_mask : Nat
  key_b : List MfClassicKey
  deriving DecidableEq, Repr

/-- Modelled from the spec: the `RawCardImage` (`MfClassicData` of `mf_classic.h`):
the detected variant and the block dump, `block b k` being byte `k` of block `b`
(`data->block[b].data[k]`, 256 blocks of 16 bytes). -/
structure MfClassicData where
  type : MfClassicType
  block : Nat → Nat → Byte

/-- Modelled from the spec: a sector trailer, holding the two keys and the access
bits of its sector (`MfClassicSectorTrailer` of `mf_classic.h`). -/
structure MfClassicSectorTrailer where
  key_a : MfClassicKey
  access_bits : List Byte
  key_b : MfClassicKey
  deriving DecidableEq, Repr

/-- Modelled from the spec: the external device record, with `getImage` and
`setImage` (`NfcDevice` of `nfc_device.h`, restricted to its MIFARE Classic image). -/
structure NfcDevice where
  data : MfClassicData

/-- Modelled from the spec: `getImage` of the device record (`nfc_device_get_data`). -/
def nfc_device_get_data (device : NfcDevice) : MfClassicData := device.data

/-- Modelled from the spec: copy of the record's image into a caller buffer
(`nfc_device_copy_data`). -/
def nfc_device_copy_data (device : NfcDevice) : MfClassicData := device.data

/-- Modelled from the spec: `setImage` of the device record (`nfc_device_set_data`). -/
def nfc_device_set_data (_device : NfcDevice) (data : MfClassicData) : NfcDevice :=
  { data := data }

/-- Modelled from the spec: number of sectors of a variant
(`mf_classic_get_total_sectors_num`): Mini 5, 1K 16, 4K 40. -/
def mf_classic_get_total_sectors_num : MfClassicType → Nat
  | MfClassicTypeMini => 5
  | MfClassicType1k => 16
  | MfClassicType4k => 40

/-- Modelled from the spec: number of the first block of a sector
(`mf_classic_get_first_block_num_of_sector`): four blocks per sector below sector 32,
sixteen per sector from there on; the result is a `uint8_t`. -/
def mf_classic_get_first_block_num_of_sector (sector : Nat) : Nat :=
  (if sector < 32 then sector * 4 else 32 * 4 + (sector - 32) * 16) % 2 ^ 8

/-- Modelled from the spec: number of the trailer (last) block of a sector
(`mf_classic_get_sector_trailer_num_by_sector`). -/
def mf_classic_get_sector_trailer_num_by_sector (sector : Nat) : Nat :=
  (if sector < 32 then sector * 4 + 3 else 32 * 4 + (sector - 32) * 16 + 15) % 2 ^ 8

/-- Modelled from the spec: the trailer of a sector as stored in the image
(`mf_classic_get_sector_trailer_by_sector`): bytes 0..5 of the trailer block are
key A, bytes 6..9 the access bits, bytes 10..15 key B. -/
def mf_classic_get_sector_trailer_by_sector (data : MfClassicData) (sector_num : Nat) :
    MfClassicSectorTrailer :=
  let blk := data.block (mf_classic_get_sector_trailer_num_by_sector sector_num)
  { key_a := ⟨[blk 0, blk 1, blk 2, blk 3, blk 4, blk 5]⟩
    access_bits := [blk 6, blk 7, blk 8, blk 9]
    key_b := ⟨[blk 10, blk 11, blk 12, blk 13, blk 14, blk 15]⟩ }

/-- Modelled from the spec: the big-endian byte encoding of a number
(`nfc_util_num2bytes`): `while(len--) { dest[len] = (uint8_t)src; src >>= 8; }`. -/
def nfc_util_num2bytes : Nat → Nat → List Byte → List Byte
  | _, 0, dest => dest
  | src, len + 1, dest =>
    nfc_util_num2bytes (src >>> 8) len (dest.set len ⟨src % 256, Nat.mod_lt _ (by decide)⟩)

/-- Modelled from the spec: the big-endian value of a byte string
(`nfc_util_bytes2num`): `res = (res << 8) | *src++` over `len` bytes, in a `uint64_t`. -/
def nfc_util_bytes2num (src : List Byte) (len : Nat) : Nat :=
  (src.take len).foldl (fun res b => ((res <<< 8) % 2 ^ 64) ||| b.val) 0

/-- Modelled from the spec: the macro `FURI_BIT_SET(x, n)`, `x |= 1 << n`, on a
64-bit mask. -/
def FURI_BIT_SET (x n : Nat) : Nat := (x ||| (1 <<< n)) % 2 ^ 64

/-! ## The transport oracle -/

/-- The transport handle `Nfc*`, as the answers it gives to the three synchronous
poller calls the plugin makes.  `mf_classic_poller_sync_detect_type` receives the
current content of `*type` and returns the status with the new content;
`mf_classic_poller_sync_read` receives the key set and the image buffer and returns
the status with the buffer as the transport left it. -/
structure Nfc where
  mf_classic_poller_sync_auth : Nat → MfClassicKey → MfClassicKeyType → MfClassicError
  mf_classic_poller_sync_detect_type : MfClassicType → MfClassicError × MfClassicType
  mf_classic_poller_sync_read :
    MfClassicDeviceKeys → MfClassicData → MfClassicError × MfClassicData

/-- A request made to the transport. -/
inductive NfcRequest where
  | auth (block_num : Nat) (key : MfClassicKey) (key_type : MfClassicKeyType)
  | detect_type
  | read (keys : MfClassicDeviceKeys) (data : MfClassicData)

/-- Whether a request is a bulk read. -/
def NfcRequest.isRead : NfcRequest → Bool
  | .read _ _ => true
  | _ => false

/-! ## The plugin -/

/-- The struct `MfClassicKeyPair` of `volna.c`: two `uint64_t` keys. -/
structure MfClassicKeyPair where
  a : Nat
  b : Nat
  deriving DecidableEq, Repr

/-- The static table `volna_1k_keys` of `volna.c`. -/
def volna_1k_keys : List MfClassicKeyPair :=
  [ { a := 0xD37C8F1793F7, b := 0 },
    { a := 0x2B787A063D5D, b := 0x2B787A063D5D },
    { a := 0x2B787A063D5D, b := 0x2B787A063D5D },
    { a := 0x2B787A063D5D, b := 0x2B787A063D5D },
    { a := 0x2B787A063D5D, b := 0x2B787A063D5D },
    { a := 0x2B787A063D5D, b := 0x2B787A063D5D },
    { a := 0x2B787A063D5D, b := 0x2B787A063D5D },
    { a := 0x2B787A063D5D, b := 0x2B787A063D5D },
    { a := 0xD37C8F1793F7, b := 0 },
    { a := 0x2B787A063D5D, b := 0x2B787A063D5D },
    { a := 0x2B787A063D5D, b := 0x2B787A063D5D },
    { a := 0x2B787A063D5D, b := 0x2B787A063D5D },
    { a := 0xD37C8F1793F7, b := 0 },
    { a := 0x2B787A063D5D, b := 0x2B787A063D5D },
    { a := 0x2B787A063D5D, b := 0x2B787A063D5D },
    { a := 0x2B787A063D5D, b := 0x2B787A063D5D } ]

/-- The zero-initialised key `MfClassicKey key = {0}`. -/
def MfClassicKey.zero : MfClassicKey := ⟨List.replicate MF_CLASSIC_KEY_SIZE 0⟩

/-- The function `volna_verify`: the result `verified` and the requests made.  The
table read `volna_1k_keys[data_sector]` is at the constant index 0. -/
def volna_verify (nfc : Nfc) : Bool × List NfcRequest :=
  let data_sector := 0
  let block_num := mf_classic_get_first_block_num_of_sector data_sector
  let key : MfClassicKey :=
    ⟨nfc_util_num2bytes (volna_1k_keys.get ⟨0, by decide⟩).a MF_CLASSIC_KEY_SIZE
      MfClassicKey.zero.data⟩
  let error := nfc.mf_classic_poller_sync_auth block_num key MfClassicKeyTypeA
  if error ≠ MfClassicErrorNone then (false, [NfcRequest.auth block_num key MfClassicKeyTypeA])
  else (true, [NfcRequest.auth block_num key MfClassicKeyTypeA])

/-- The initial key set of `volna_read`: `{.key_a_mask = 0, .key_b_mask = 0}`, the
remaining members zero-initialised. -/
def volna_read_keys_init : MfClassicDeviceKeys :=
  { key_a_mask := 0
    key_a := List.replicate MF_CLASSIC_TOTAL_SECTORS_MAX MfClassicKey.zero
    key_b_mask := 0
    key_b := List.replicate MF_CLASSIC_TOTAL_SECTORS_MAX MfClassicKey.zero }

/-- One iteration of the key-set loop of `volna_read`, at index `i`.  The read of
`volna_1k_keys[i]` faults (`none`) when `i` is past the end of the table. -/
def volna_read_keys_body (keys : MfClassicDeviceKeys) (i : Nat) : Option MfClassicDeviceKeys :=
  match volna_1k_keys[i]? with
  | none => none
  | some pair =>
    let keys : MfClassicDeviceKeys :=
      { keys with
        key_a := keys.key_a.set i
          ⟨nfc_util_num2bytes pair.a MF_CLASSIC_KEY_SIZE (keys.key_a.getD i MfClassicKey.zero).data⟩
        key_a_mask := FURI_BIT_SET keys.key_a_mask i }
    if i = 0 ∨ i = 8 ∨ i = 12 then some keys
    else
      some { keys with
        key_b := keys.key_b.set i
          ⟨nfc_util_num2bytes pair.b MF_CLASSIC_KEY_SIZE (keys.key_b.getD i MfClassicKey.zero).data⟩
        key_b_mask := FURI_BIT_SET keys.key_b_mask i }

/-- The key-set loop of `volna_read`:
`for(size_t i = 0; i < mf_classic_get_total_sectors_num(data->type); i++)`. -/
def volna_read_keys (type : MfClassicType) : Option MfClassicDeviceKeys :=
  (List.range (mf_classic_get_total_sectors_num type)).foldlM volna_read_keys_body
    volna_read_keys_init

/-- What a call of `volna_read` leaves behind: the returned `is_read`, the device
record, and the requests made to the transport. -/
structure ReadOutcome where
  is_read : Bool
  device : NfcDevice
  requests : List NfcRequest

/-- The function `volna_read`.  `none` is a fault (a read past the end of
`volna_1k_keys`). -/
def volna_read (nfc : Nfc) (device : NfcDevice) : Option ReadOutcome :=
  let data := nfc_device_copy_data device
  let detected := nfc.mf_classic_poller_sync_detect_type MfClassicTypeMini
  if detected.1 ≠ MfClassicErrorNone then
    some { is_read := false, device := device, requests := [NfcRequest.detect_type] }
  else
    let data : MfClassicData := { data with type := detected.2 }
    match volna_read_keys data.type with
    | none => none
    | some keys =>
      let answer := nfc.mf_classic_poller_sync_read keys data
      if answer.1 ≠ MfClassicErrorNone then
        some { is_read := false, device := device,
               requests := [NfcRequest.detect_type, NfcRequest.read keys data] }
      else
        -- `nfc_device_set_data(device, NfcProtocolMfClassic, data); is_read = false;`
        some { is_read := false, device := nfc_device_set_data device answer.2,
               requests := [NfcRequest.detect_type, NfcRequest.read keys data] }

/-- Modelled from the spec: the conversions `%u` and `%lu` of the text format,
unsigned decimal without padding. -/
def printf_u (n : Nat) : String := Nat.repr n

/-- Modelled from the spec: the conversion `%02u` of the text format (`<hour:02>`),
unsigned decimal padded on the left with zeros to a width of at least two. -/
def printf_02u (n : Nat) : String :=
  let s := Nat.repr n
  String.mk (List.replicate (2 - s.length) '0') ++ s

/-- The call `furi_string_printf(parsed_data, "\e#Volna\nCard number: %lu\nBalance: %u
RUR\nLast charge at %02u:%02u", ...)` of `volna_parse`: the new content of the buffer. -/
def volna_printf (card_number balance last_charge_hours last_charge_minutes : Nat) : String :=
  "\x1b#Volna\nCard number: " ++ printf_u card_number ++ "\nBalance: " ++ printf_u balance
    ++ " RUR\nLast charge at " ++ printf_02u last_charge_hours ++ ":"
    ++ printf_02u last_charge_minutes

/-- The function `volna_parse`: the returned `parsed` and the content of the
caller's buffer `parsed_data` after the call. -/
def volna_parse (device : NfcDevice) (parsed_data : String) : Bool × String :=
  let data := nfc_device_get_data device
  if data.type ≠ MfClassicType1k then (false, parsed_data)
  else
    let data_sector := 8
    let last_charge_sector := 0
    let sec_tr := mf_classic_get_sector_trailer_by_sector data data_sector
    let key := nfc_util_bytes2num sec_tr.key_a.data MF_CLASSIC_KEY_SIZE
    if key ≠ (volna_1k_keys.get ⟨8, by decide⟩).a then (false, parsed_data)
    else
      let start_block_num := mf_classic_get_first_block_num_of_sector data_sector
      let temp_ptr := fun k => (data.block (start_block_num + 1) (8 + k)).val
      let card_number :=
        (((((temp_ptr 0 <<< 24) % 2 ^ 32) ||| (temp_ptr 1 <<< 16) ||| (temp_ptr 2 <<< 8)
          ||| temp_ptr 3) &&& 0x3FFFFFFF)) % 2 ^ 32
      if card_number = 0 then (false, parsed_data)
      else
        let temp_ptr := fun k => (data.block (start_block_num + 2) (8 + k)).val
        let balance := (((temp_ptr 0 <<< 8) ||| temp_ptr 1) &&& 0x7FFF) % 2 ^ 16
        let start_block_last_charge :=
          mf_classic_get_first_block_num_of_sector last_charge_sector
        let temp_ptr := fun k => (data.block (start_block_last_charge + 1) (0 + k)).val
        let last_charge := (((temp_ptr 0 <<< 8) ||| temp_ptr 1) &&& 0x1FFF) % 2 ^ 16
        let last_charge_hours := (last_charge / 100) % 2 ^ 8
        let last_charge_minutes := (last_charge % 100) % 2 ^ 8
        (true, volna_printf card_number balance last_charge_hours last_charge_minutes)

/-! ## Sample inputs -/

/-- An image of the given variant whose blocks 35 (trailer of sector 8), 33, 34 and 1
start with the given bytes; every other byte is zero. -/
def sample_image (type : MfClassicType) (block35 block33 block34 block1 : List Byte) :
    MfClassicData :=
  { type := type
    block := fun b k =>
      if b = 35 then block35.getD k 0
      else if b = 33 then block33.getD k 0
      else if b = 34 then block34.getD k 0
      else if b = 1 then block1.getD k 0
      else 0 }

/-- The image of the scenarios A, B and C: a 1K card keyed with the data key, card
number bytes `00 00 27 11`, balance bytes `03 E8`, last-charge bytes `04 D2`. -/
def scenario_image : MfClassicData :=
  sample_image MfClassicType1k [0xD3, 0x7C, 0x8F, 0x17, 0x93, 0xF7]
    [0, 0, 0, 0, 0, 0, 0, 0, 0x00, 0x00, 0x27, 0x11] [0, 0, 0, 0, 0, 0, 0, 0, 0x03, 0xE8]
    [0x04, 0xD2]

/-- The scenario image with the last-charge bytes `04 FB` (raw value 1275). -/
def scenario_image_1275 : MfClassicData :=
  sample_image MfClassicType1k [0xD3, 0x7C, 0x8F, 0x17, 0x93, 0xF7]
    [0, 0, 0, 0, 0, 0, 0, 0, 0x00, 0x00, 0x27, 0x11] [0, 0, 0, 0, 0, 0, 0, 0, 0x03, 0xE8]
    [0x04, 0xFB]

/-- The scenario image with the card number bytes `C0 00 27 11`: the two top bits of
the first byte are set. -/
def scenario_image_high : MfClassicData :=
  sample_image MfClassicType1k [0xD3, 0x7C, 0x8F, 0x17, 0x93, 0xF7]
    [0, 0, 0, 0, 0, 0, 0, 0, 0xC0, 0x00, 0x27, 0x11] [0, 0, 0, 0, 0, 0, 0, 0, 0x03, 0xE8]
    [0x04, 0xD2]

/-- The text of the scenario image: card number 10001, balance 1000, last charge 12:34. -/
def scenario_text : String :=
  "\x1b#Volna\nCard number: 10001\nBalance: 1000 RUR\nLast charge at 12:34"

/-- A blank image: variant Mini, every byte zero. -/
def blank_image : MfClassicData := sample_image MfClassicTypeMini [] [] [] []

/-- A transport that answers every authentication with `auth`, detection with
`(detect, type)` and every bulk read with `(read, image)`. -/
def sample_nfc (auth detect : MfClassicError) (type : MfClassicType) (read : MfClassicError)
    (image : MfClassicData) : Nfc :=
  { mf_classic_poller_sync_auth := fun _ _ _ => auth
    mf_classic_poller_sync_detect_type := fun _ => (detect, type)
    mf_classic_poller_sync_read := fun _ _ => (read, image) }

/-- A transport that accepts exactly the authentication of block 0 with the data key
as key A, and rejects every other authentication request. -/
def sample_nfc_only_sector0 : Nfc :=
  { mf_classic_poller_sync_auth := fun block_num key key_type =>
      if block_num = 0 ∧ key = ⟨[0xD3, 0x7C, 0x8F, 0x17, 0x93, 0xF7]⟩
          ∧ key_type = MfClassicKeyTypeA then MfClassicErrorNone
      else MfClassicErrorAuth
    mf_classic_poller_sync_detect_type := fun t => (MfClassicErrorTimeout, t)
    mf_classic_poller_sync_read := fun _ data => (MfClassicErrorTimeout, data) }

/-- A 1K image whose sector-8 trailer holds the key `00 00 00 00 00 00`, with the card
number bytes of the scenario. -/
def image_foreign_key : MfClassicData :=
  sample_image MfClassicType1k [0, 0, 0, 0, 0, 0]
    [0, 0, 0, 0, 0, 0, 0, 0, 0x00, 0x00, 0x27, 0x11] [0, 0, 0, 0, 0, 0, 0, 0, 0x03, 0xE8]
    [0x04, 0xD2]

/-- A 1K image keyed with the data key whose card number bytes are `C0 00 00 00`: the
masked card number is zero. -/
def image_zero_number : MfClassicData :=
  sample_image MfClassicType1k [0xD3, 0x7C, 0x8F, 0x17, 0x93, 0xF7]
    [0, 0, 0, 0, 0, 0, 0, 0, 0xC0, 0x00, 0x00, 0x00] [0, 0, 0, 0, 0, 0, 0, 0, 0x03, 0xE8]
    [0x04, 0xD2]

/-- The scenario image with everything else changed: the access bits and key B of the
sector-8 trailer are `AA`, the trailer of sector 0 (block 3) is `FF` throughout, and every
byte outside the decoded fields of blocks 1, 33 and 34 is `55`. -/
def scenario_image_repainted : MfClassicData :=
  { type := MfClassicType1k
    block := fun b k =>
      if b = 35 then (if k < 6 then scenario_image.block b k else 0xAA)
      else if b = 33 then (if 8 ≤ k ∧ k < 12 then scenario_image.block b k else 0x55)
      else if b = 34 then (if 8 ≤ k ∧ k < 10 then scenario_image.block b k else 0x55)
      else if b = 1 then (if k < 2 then scenario_image.block b k else 0x55)
      else if b = 3 then 0xFF
      else 0x55 }

end Volna

/-!
# RGB backlight settings (`rgb_backlight.c`)

A shallow embedding of the settings part of
`applications/settings/notification_settings/rgb_backlight.c`: the colour table, the
static `rgb_settings`, `rgb_backlight_set_color`, `rgb_backlight_set_custom_color` and
`rgb_backlight_load_settings`.  The static `rgb_settings` is passed explicitly; what the
system answers to `rgb_backlight_load_settings` is a record of answers.  The brightness
arithmetic of `rgb_backlight_update` is in floating point and is not modelled; only its
reads of the colour table are.
-/

namespace RgbBacklight

/-- The constant `RGB_BACKLIGHT_SETTINGS_VERSION`. -/
def RGB_BACKLIGHT_SETTINGS_VERSION : Nat := 6

/-- Modelled from the spec: the struct `RGBBacklightSettings` (declared in
`rgb_backlight.h`), with the members the initialiser of `rgb_settings` names: five
`uint8_t` and a `bool`. -/
structure RGBBacklightSettings where
  version : Fin 256
  display_color_index : Fin 256
  custom_r : Fin 256
  custom_g : Fin 256
  custom_b : Fin 256
  settings_is_loaded : Bool
  deriving DecidableEq, Repr

/-- Modelled from the spec: the struct `RGBBacklightColor` (declared in
`rgb_backlight.h`): a name and three `uint8_t` channels. -/
structure RGBBacklightColor where
  name : String
  red : Fin 256
  green : Fin 256
  blue : Fin 256
  deriving DecidableEq, Repr

/-- The initial value of the static `rgb_settings`. -/
def rgb_settings : RGBBacklightSettings :=
  { version := 6
    display_color_index := 0
    custom_r := 254
    custom_g := 254
    custom_b := 254
    settings_is_loaded := false }

/-- The static table `colors`. -/
def colors : List RGBBacklightColor :=
  [ ⟨"Orange", 255, 60, 0⟩,
    ⟨"Yellow", 255, 144, 0⟩,
    ⟨"Spring", 167, 255, 0⟩,
    ⟨"Lime", 0, 255, 0⟩,
    ⟨"Aqua", 0, 255, 127⟩,
    ⟨"Cyan", 0, 210, 210⟩,
    ⟨"Azure", 0, 127, 255⟩,
    ⟨"Blue", 0, 0, 255⟩,
    ⟨"Purple", 127, 0, 255⟩,
    ⟨"Magenta", 210, 0, 210⟩,
    ⟨"Pink", 255, 0, 127⟩,
    ⟨"Red", 255, 0, 0⟩,
    ⟨"White", 254, 210, 200⟩,
    ⟨"Custom", 0, 0, 0⟩ ]

/-- The macro `COLOR_COUNT`: `sizeof(colors) / sizeof(RGBBacklightColor)`. -/
def COLOR_COUNT : Nat := colors.length

/-- The function `rgb_backlight_get_color_count`, returning a `uint8_t`. -/
def rgb_backlight_get_color_count : Nat := COLOR_COUNT % 2 ^ 8

/-- The function `rgb_backlight_set_color`; the comparison is made in `int`. -/
def rgb_backlight_set_color (s : RGBBacklightSettings) (color_index : Fin 256) :
    RGBBacklightSettings :=
  let color_index : Fin 256 :=
    if (color_index.val : Int) > (rgb_backlight_get_color_count : Int) - 1 then 0
    else color_index
  { s with display_color_index := color_index }

/-- The function `rgb_backlight_set_custom_color`. -/
def rgb_backlight_set_custom_color (s : RGBBacklightSettings) (color index : Fin 256) :
    RGBBacklightSettings :=
  if index.val > 2 then s
  else if index.val = 0 then { s with custom_r := color }
  else if index.val = 1 then { s with custom_g := color }
  else if index.val = 2 then { s with custom_b := color }
  else s

/-- Modelled from the spec: the value of `sizeof(RGBBacklightSettings)`, six one-byte
members. -/
def settings_size : Nat := 6

/-- What the system answers during one call of `rgb_backlight_load_settings`: whether
the boot mode is `FuriHalRtcBootModeNormal`; the answer of `furi_record_exists` at the
poll made after `n` failed polls; the result of `storage_file_open`; the byte count
returned by `storage_file_read` and the content it leaves in the local `settings`. -/
structure LoadAnswers where
  boot_mode_normal : Bool
  furi_record_exists : Nat → Bool
  storage_file_open : Bool
  bytes_count : Nat
  settings : RGBBacklightSettings

/-- The wait loop of `rgb_backlight_load_settings`, from the current value of the
`uint8_t` counter `timeout`: `some true` when the storage record exists, `some false`
when the loop gives up (`timeout > 150`), `none` when the fuel runs out. -/
def rgb_backlight_wait_storage (furi_record_exists : Nat → Bool) : Nat → Nat → Option Bool
  | 0, _ => none
  | fuel + 1, timeout =>
    if furi_record_exists timeout then some true
    else
      let timeout := (timeout + 1) % 2 ^ 8
      if timeout > 150 then some false
      else rgb_backlight_wait_storage furi_record_exists fuel timeout

/-- The function `rgb_backlight_load_settings`: the value of `rgb_settings` after the
call (`none` only if the wait loop ran out of fuel). -/
def rgb_backlight_load_settings (env : LoadAnswers) (s : RGBBacklightSettings) :
    Option RGBBacklightSettings :=
  if env.boot_mode_normal = false then some { s with settings_is_loaded := true }
  else
    match rgb_backlight_wait_storage env.furi_record_exists 152 0 with
    | none => none
    | some false => some { s with settings_is_loaded := true }
    | some true =>
      let fs_result := env.storage_file_open
      let fs_result :=
        if fs_result then (if env.bytes_count % 2 ^ 16 ≠ settings_size then false else fs_result)
        else fs_result
      let s :=
        if fs_result then
          (if env.settings.version.val ≠ RGB_BACKLIGHT_SETTINGS_VERSION then s else env.settings)
        else s
      some { s with settings_is_loaded := true }

/-- The read of `colors` that one iteration of the LED loop of `rgb_backlight_update`
makes at `display_color_index`: `some none` when the index is 13 (the custom colour is
used, the table is not read), `some (some c)` for the entry read, and `none` for a read
past the end of the table. -/
def rgb_backlight_update_color (s : RGBBacklightSettings) : Option (Option RGBBacklightColor) :=
  if s.display_color_index.val = 13 then some none
  else
    match colors[s.display_color_index.val]? with
    | none => none
    | some c => some (some c)

/-- A call of one of the three functions that write `rgb_settings`. -/
inductive Call where
  | set_color (color_index : Fin 256)
  | set_custom_color (color index : Fin 256)
  | load_settings (env : LoadAnswers)

/-- The effect of one call on `rgb_settings`. -/
def Call.apply (s : RGBBacklightSettings) : Call → Option RGBBacklightSettings
  | .set_color color_index => some (rgb_backlight_set_color s color_index)
  | .set_custom_color color index => some (rgb_backlight_set_custom_color s color index)
  | .load_settings env => rgb_backlight_load_settings env s

/-- The effect of a sequence of calls, from left to right. -/
def run (calls : List Call) (s : RGBBacklightSettings) : Option RGBBacklightSettings :=
  calls.foldlM Call.apply s

/-! ## Sample inputs -/

/-- Settings of the right version whose `display_color_index` is 200. -/
def settings_index_200 : RGBBacklightSettings :=
  { version := 6
    display_color_index := 200
    custom_r := 254
    custom_g := 254
    custom_b := 254
    settings_is_loaded := true }

/-- A normal boot with the storage record present at the first poll and a settings file
of the right size that holds `settings_index_200`. -/
def answers_index_200 : LoadAnswers :=
  { boot_mode_normal := true
    furi_record_exists := fun _ => true
    storage_file_open := true
    bytes_count := 6
    settings := settings_index_200 }

end RgbBacklight

namespace Volna

open MfClassicType MfClassicError MfClassicKeyType

/-! ## Arithmetic of the packed fields -/

theorem shl_or_of_lt (i a b : Nat) (hb : b < 2 ^ i) : (a <<< i) ||| b = a * 2 ^ i + b := by
  rw [Nat.shiftLeft_eq, Nat.mul_comm a, ← Nat.mul_add_lt_is_or hb]

theorem be16_eq (b0 b1 : Byte) : (b0.val <<< 8) ||| b1.val = b0.val * 2 ^ 8 + b1.val :=
  shl_or_of_lt 8 _ _ b1.isLt

theorem be32_eq (b0 b1 b2 b3 : Byte) :
    ((b0.val <<< 24) % 2 ^ 32) ||| (b1.val <<< 16) ||| (b2.val <<< 8) ||| b3.val
      = b0.val * 2 ^ 24 + b1.val * 2 ^ 16 + b2.val * 2 ^ 8 + b3.val := by
  have h0 := b0.isLt
  have h1 := b1.isLt
  have h2 := b2.isLt
  have h3 := b3.isLt
  have e0 : (b0.val <<< 24) % 2 ^ 32 = b0.val <<< 24 := by
    rw [Nat.shiftLeft_eq]; omega
  rw [e0, Nat.lor_assoc, Nat.lor_assoc, shl_or_of_lt 8 _ _ h3,
    shl_or_of_lt 16 _ _ (by omega), shl_or_of_lt 24 _ _ (by omega)]
  omega

theorem bytes2num6_eq (k0 k1 k2 k3 k4 k5 : Byte) :
    nfc_util_bytes2num [k0, k1, k2, k3, k4, k5] MF_CLASSIC_KEY_SIZE
      = k0.val * 2 ^ 40 + k1.val * 2 ^ 32 + k2.val * 2 ^ 24 + k3.val * 2 ^ 16
        + k4.val * 2 ^ 8 + k5.val := by
  have h0 := k0.isLt
  have h1 := k1.isLt
  have h2 := k2.isLt
  have h3 := k3.isLt
  have h4 := k4.isLt
  have h5 := k5.isLt
  simp only [nfc_util_bytes2num, MF_CLASSIC_KEY_SIZE, List.take, List.foldl, Nat.shiftLeft_eq]
  have step : ∀ a b : Nat, a < 2 ^ 56 → b < 2 ^ 8 → (a * 2 ^ 8) % 2 ^ 64 ||| b = a * 2 ^ 8 + b := by
    intro a b ha hb
    rw [Nat.mod_eq_of_lt (by omega), ← Nat.shiftLeft_eq, shl_or_of_lt 8 _ _ hb, Nat.shiftLeft_eq]
  rw [step 0 _ (by omega) h0, step _ _ (by omega) h1, step _ _ (by omega) h2,
    step _ _ (by omega) h3, step _ _ (by omega) h4, step _ _ (by omega) h5]
  omega


theorem volna_parse_eq (device : NfcDevice) (parsed_data : String) :
    volna_parse device parsed_data =
      if device.data.type = MfClassicType1k
          ∧ (device.data.block 35 0).val * 2 ^ 40 + (device.data.block 35 1).val * 2 ^ 32
              + (device.data.block 35 2).val * 2 ^ 24 + (device.data.block 35 3).val * 2 ^ 16
              + (device.data.block 35 4).val * 2 ^ 8 + (device.data.block 35 5).val
              = 0xD37C8F1793F7
          ∧ ((device.data.block 33 8).val * 2 ^ 24 + (device.data.block 33 9).val * 2 ^ 16
              + (device.data.block 33 10).val * 2 ^ 8 + (device.data.block 33 11).val)
              &&& 0x3FFFFFFF ≠ 0 then
        (true, volna_printf
          (((device.data.block 33 8).val * 2 ^ 24 + (device.data.block 33 9).val * 2 ^ 16
              + (device.data.block 33 10).val * 2 ^ 8 + (device.data.block 33 11).val)
              &&& 0x3FFFFFFF)
          (((device.data.block 34 8).val * 2 ^ 8 + (device.data.block 34 9).val) &&& 0x7FFF)
          ((((device.data.block 1 0).val * 2 ^ 8 + (device.data.block 1 1).val) &&& 0x1FFF) / 100)
          ((((device.data.block 1 0).val * 2 ^ 8 + (device.data.block 1 1).val) &&& 0x1FFF) % 100))
      else (false, parsed_data) := by
  have hcn : ∀ x : Nat, (x &&& 0x3FFFFFFF) % 2 ^ 32 = x &&& 0x3FFFFFFF := fun x =>
    Nat.mod_eq_of_lt (Nat.lt_trans (Nat.and_lt_two_pow x (by decide : 0x3FFFFFFF < 2 ^ 30))
      (by decide))
  have hbal : ∀ x : Nat, (x &&& 0x7FFF) % 2 ^ 16 = x &&& 0x7FFF := fun x =>
    Nat.mod_eq_of_lt (Nat.lt_trans (Nat.and_lt_two_pow x (by decide : 0x7FFF < 2 ^ 15))
      (by decide))
  have hraw : ∀ x : Nat, (x &&& 0x1FFF) % 2 ^ 16 = x &&& 0x1FFF := fun x =>
    Nat.mod_eq_of_lt (Nat.lt_trans (Nat.and_lt_two_pow x (by decide : 0x1FFF < 2 ^ 13))
      (by decide))
  have hh : ∀ x : Nat, ((x &&& 0x1FFF) / 100) % 2 ^ 8 = (x &&& 0x1FFF) / 100 := fun x => by
    have := Nat.and_lt_two_pow x (by decide : 0x1FFF < 2 ^ 13)
    omega
  have hm : ∀ x : Nat, ((x &&& 0x1FFF) % 100) % 2 ^ 8 = (x &&& 0x1FFF) % 100 := fun x => by
    omega
  have hk : (volna_1k_keys.get ⟨8, by decide⟩).a = 0xD37C8F1793F7 := rfl
  have hs8 : mf_classic_get_first_block_num_of_sector 8 = 32 := rfl
  have hs0 : mf_classic_get_first_block_num_of_sector 0 = 0 := rfl
  have ht8 : mf_classic_get_sector_trailer_num_by_sector 8 = 35 := rfl
  simp only [volna_parse, nfc_device_get_data, mf_classic_get_sector_trailer_by_sector, hk, hs8,
    hs0, ht8, bytes2num6_eq, Nat.add_zero, Nat.zero_add, Nat.reduceAdd, be32_eq, be16_eq, hcn,
    hbal, hraw, hh, hm]
  split_ifs <;> simp_all

/-! ## Rendering of the text -/

theorem printf_02u_two_digits : ∀ n : Nat, n < 100 →
    printf_02u n = String.mk [Nat.digitChar (n / 10), Nat.digitChar (n % 10)] := by
  decide

theorem volna_printf_lines (card_number balance hours minutes : Nat) (hh : hours < 100)
    (hm : minutes < 100) :
    volna_printf card_number balance hours minutes =
      String.intercalate "\n"
        ["\x1b#Volna",
         "Card number: " ++ Nat.repr card_number,
         "Balance: " ++ Nat.repr balance ++ " RUR",
         "Last charge at " ++ String.mk [Nat.digitChar (hours / 10), Nat.digitChar (hours % 10)]
           ++ ":" ++ String.mk [Nat.digitChar (minutes / 10), Nat.digitChar (minutes % 10)]] := by
  rw [volna_printf, printf_02u_two_digits hours hh, printf_02u_two_digits minutes hm]
  apply String.ext
  simp [String.intercalate, String.intercalate.go, printf_u, String.data_append]

theorem volna_printf_tail_1234 (card_number balance : Nat) :
    ∃ head : String, volna_printf card_number balance (1234 / 100) (1234 % 100)
      = head ++ "Last charge at 12:34" := by
  refine ⟨"\x1b#Volna\nCard number: " ++ printf_u card_number ++ "\nBalance: "
    ++ printf_u balance ++ " RUR\n", ?_⟩
  have e : printf_02u (1234 / 100) = "12" ∧ printf_02u (1234 % 100) = "34" := by decide
  rw [volna_printf, e.1, e.2]
  apply String.ext
  simp [String.data_append]

/-! ## Unfolding `volna_read` -/

theorem volna_read_of_detect_error (nfc : Nfc) (device : NfcDevice)
    (hdet : (nfc.mf_classic_poller_sync_detect_type MfClassicTypeMini).1 ≠ MfClassicErrorNone) :
    volna_read nfc device
      = some { is_read := false, device := device, requests := [NfcRequest.detect_type] } := by
  simp [volna_read, hdet]

theorem volna_read_of_keys (nfc : Nfc) (device : NfcDevice) (keys : MfClassicDeviceKeys)
    (hdet : (nfc.mf_classic_poller_sync_detect_type MfClassicTypeMini).1 = MfClassicErrorNone)
    (hkeys : volna_read_keys (nfc.mf_classic_poller_sync_detect_type MfClassicTypeMini).2
      = some keys) :
    volna_read nfc device
      = if (nfc.mf_classic_poller_sync_read keys { device.data with
              type := (nfc.mf_classic_poller_sync_detect_type MfClassicTypeMini).2 }).1
            ≠ MfClassicErrorNone then
          some { is_read := false, device := device,
                 requests := [NfcRequest.detect_type, NfcRequest.read keys { device.data with
                   type := (nfc.mf_classic_poller_sync_detect_type MfClassicTypeMini).2 }] }
        else
          some { is_read := false
                 device := nfc_device_set_data device (nfc.mf_classic_poller_sync_read keys
                   { device.data with
                     type := (nfc.mf_classic_poller_sync_detect_type MfClassicTypeMini).2 }).2
                 requests := [NfcRequest.detect_type, NfcRequest.read keys { device.data with
                   type := (nfc.mf_classic_poller_sync_detect_type MfClassicTypeMini).2 }] } := by
  simp only [volna_read, nfc_device_copy_data, hdet, ne_eq, not_true_eq_false, if_false, hkeys]

theorem volna_read_keys_1k_isSome : (volna_read_keys MfClassicType1k).isSome = true := by
  decide

/-! ## The claims -/

/-- C1 (what the code does on the success path): when detection reports no error with
the 1K variant and the bulk read reports no error, `volna_read` stores the image filled
by the bulk read in the device record, and returns false. -/
theorem volna_read_success_returns_false (nfc : Nfc) (device : NfcDevice)
    (keys : MfClassicDeviceKeys)
    (hdet : nfc.mf_classic_poller_sync_detect_type MfClassicTypeMini
      = (MfClassicErrorNone, MfClassicType1k))
    (hkeys : volna_read_keys MfClassicType1k = some keys)
    (hread : (nfc.mf_classic_poller_sync_read keys
      { device.data with type := MfClassicType1k }).1 = MfClassicErrorNone) :
    ∃ out : ReadOutcome, volna_read nfc device = some out
      ∧ out.is_read = false
      ∧ out.device.data = (nfc.mf_classic_poller_sync_read keys
          { device.data with type := MfClassicType1k }).2
      ∧ out.requests = [NfcRequest.detect_type,
          NfcRequest.read keys { device.data with type := MfClassicType1k }] := by
  have h1 : (nfc.mf_classic_poller_sync_detect_type MfClassicTypeMini).1 = MfClassicErrorNone := by
    rw [hdet]
  have h2 : (nfc.mf_classic_poller_sync_detect_type MfClassicTypeMini).2 = MfClassicType1k := by
    rw [hdet]
  have h := volna_read_of_keys nfc device keys h1 (by rw [h2]; exact hkeys)
  rw [h2] at h
  rw [if_neg (by rw [hread]; exact fun hne => hne rfl)] at h
  exact ⟨_, h, rfl, rfl, rfl⟩

/-- C1, on a sample transport: detection of a 1K card and a successful bulk read of the
scenario image into a blank device record; the record then holds the scenario image and
the call returns false. -/
theorem volna_read_success_returns_false_witness :
    (sample_nfc MfClassicErrorNone MfClassicErrorNone MfClassicType1k MfClassicErrorNone
        scenario_image).mf_classic_poller_sync_detect_type MfClassicTypeMini
      = (MfClassicErrorNone, MfClassicType1k)
    ∧ ∃ out : ReadOutcome,
        volna_read (sample_nfc MfClassicErrorNone MfClassicErrorNone MfClassicType1k
          MfClassicErrorNone scenario_image) ⟨blank_image⟩ = some out
        ∧ out.is_read = false
        ∧ out.device.data.type = MfClassicType1k
        ∧ out.device.data.block 33 11 = 0x11 := by
  refine ⟨rfl, ?_⟩
  obtain ⟨out, h, h1, h2, _⟩ := volna_read_success_returns_false
    (sample_nfc MfClassicErrorNone MfClassicErrorNone MfClassicType1k MfClassicErrorNone
      scenario_image) ⟨blank_image⟩
    ((volna_read_keys MfClassicType1k).get volna_read_keys_1k_isSome) rfl (by simp) rfl
  refine ⟨out, h, h1, ?_, ?_⟩
  · rw [h2]; rfl
  · rw [h2]; decide

/-- C2: `volna_parse` returns true if and only if the image's variant is 1K, the six
key A bytes of the trailer of sector 8 (block 35) read as a big-endian number equal the
key table's key A for sector 8, which is `0xD37C8F1793F7`, and the four big-endian bytes
at offset 8 of block 33 masked with `0x3FFFFFFF` are non-zero. -/
theorem volna_parse_true_iff (device : NfcDevice) (parsed_data : String) :
    volna_1k_keys[8]? = some { a := 0xD37C8F1793F7, b := 0 } ∧
    ((volna_parse device parsed_data).1 = true ↔
      (device.data.type = MfClassicType1k
        ∧ (device.data.block 35 0).val * 2 ^ 40 + (device.data.block 35 1).val * 2 ^ 32
            + (device.data.block 35 2).val * 2 ^ 24 + (device.data.block 35 3).val * 2 ^ 16
            + (device.data.block 35 4).val * 2 ^ 8 + (device.data.block 35 5).val
            = 0xD37C8F1793F7
        ∧ ((device.data.block 33 8).val * 2 ^ 24 + (device.data.block 33 9).val * 2 ^ 16
            + (device.data.block 33 10).val * 2 ^ 8 + (device.data.block 33 11).val)
            &&& 0x3FFFFFFF ≠ 0)) := by
  refine ⟨rfl, ?_⟩
  rw [volna_parse_eq]
  split_ifs with h
  · simpa using h
  · simpa using h

/-- C3: for a detected 1K card the key set `volna_read` hands to the bulk read has, for
every sector `i` below 16, bit `i` of `key_a_mask` set and `key_a[i]` equal to the
six-byte encoding of the table's key A for sector `i`; bit `i` of `key_b_mask` is clear
exactly for `i` in `{0, 8, 12}`, and for every other `i` it is set and `key_b[i]` is the
six-byte encoding of `0x2B787A063D5D`; no mask bit at index 16 or above is set. -/
theorem volna_read_key_set_1k (nfc : Nfc) (device : NfcDevice)
    (hdet : nfc.mf_classic_poller_sync_detect_type MfClassicTypeMini
      = (MfClassicErrorNone, MfClassicType1k)) :
    ∃ (keys : MfClassicDeviceKeys) (out : ReadOutcome),
      volna_read nfc device = some out
      ∧ out.requests = [NfcRequest.detect_type,
          NfcRequest.read keys { device.data with type := MfClassicType1k }]
      ∧ (∀ i : Nat, i < 16 → keys.key_a_mask.testBit i = true
          ∧ ∃ pair : MfClassicKeyPair, volna_1k_keys[i]? = some pair
            ∧ keys.key_a[i]? = some ⟨nfc_util_num2bytes pair.a 6 (List.replicate 6 0)⟩
            ∧ nfc_util_bytes2num (nfc_util_num2bytes pair.a 6 (List.replicate 6 0)) 6 = pair.a)
      ∧ (∀ i : Nat, i < 16 → (keys.key_b_mask.testBit i = false ↔ (i = 0 ∨ i = 8 ∨ i = 12)))
      ∧ (∀ i : Nat, i < 16 → ¬ (i = 0 ∨ i = 8 ∨ i = 12) → keys.key_b_mask.testBit i = true
          ∧ keys.key_b[i]? = some ⟨nfc_util_num2bytes 0x2B787A063D5D 6 (List.replicate 6 0)⟩)
      ∧ (∀ i : Nat, 16 ≤ i →
          keys.key_a_mask.testBit i = false ∧ keys.key_b_mask.testBit i = false) := by
  have h1 : (nfc.mf_classic_poller_sync_detect_type MfClassicTypeMini).1 = MfClassicErrorNone := by
    rw [hdet]
  have h2 : (nfc.mf_classic_poller_sync_detect_type MfClassicTypeMini).2 = MfClassicType1k := by
    rw [hdet]
  have hk : volna_read_keys MfClassicType1k
      = some ((volna_read_keys MfClassicType1k).get volna_read_keys_1k_isSome) := by
    simp
  have h := volna_read_of_keys nfc device _ h1 (by rw [h2]; exact hk)
  rw [h2] at h
  refine ⟨(volna_read_keys MfClassicType1k).get volna_read_keys_1k_isSome, ?_⟩
  have hreq : ∃ out : ReadOutcome, volna_read nfc device = some out
      ∧ out.requests = [NfcRequest.detect_type,
          NfcRequest.read ((volna_read_keys MfClassicType1k).get volna_read_keys_1k_isSome)
            { device.data with type := MfClassicType1k }] := by
    rw [h]
    split_ifs
    · exact ⟨_, rfl, rfl⟩
    · exact ⟨_, rfl, rfl⟩
  obtain ⟨out, ho, hr⟩ := hreq
  refine ⟨out, ho, hr, ?_, ?_, ?_, ?_⟩
  · intro i hi
    interval_cases i <;> exact ⟨by decide, _, rfl, by decide, by decide⟩
  · intro i hi
    interval_cases i <;> decide
  · intro i hi hne
    interval_cases i <;> first | exact absurd (by decide) hne | exact ⟨by decide, by decide⟩
  · intro i hi
    have hpow : 2 ^ 16 ≤ 2 ^ i := Nat.pow_le_pow_right (by decide) hi
    constructor
    · exact Nat.testBit_lt_two_pow (Nat.lt_of_lt_of_le (by decide) hpow)
    · exact Nat.testBit_lt_two_pow (Nat.lt_of_lt_of_le (by decide) hpow)

/-- C3, on a sample transport: the key set requested for a detected 1K card has key B
absent for sector 8, present for sector 9, and no mask bit at index 40. -/
theorem volna_read_key_set_1k_witness :
    (sample_nfc MfClassicErrorNone MfClassicErrorNone MfClassicType1k MfClassicErrorNone
        scenario_image).mf_classic_poller_sync_detect_type MfClassicTypeMini
      = (MfClassicErrorNone, MfClassicType1k)
    ∧ ∃ (keys : MfClassicDeviceKeys) (out : ReadOutcome),
        volna_read (sample_nfc MfClassicErrorNone MfClassicErrorNone MfClassicType1k
          MfClassicErrorNone scenario_image) ⟨blank_image⟩ = some out
        ∧ out.requests = [NfcRequest.detect_type,
            NfcRequest.read keys { blank_image with type := MfClassicType1k }]
        ∧ keys.key_a_mask.testBit 8 = true
        ∧ keys.key_b_mask.testBit 8 = false
        ∧ keys.key_b_mask.testBit 9 = true
        ∧ keys.key_b[9]? = some ⟨[0x2B, 0x78, 0x7A, 0x06, 0x3D, 0x5D]⟩
        ∧ keys.key_a_mask.testBit 40 = false := by
  refine ⟨rfl, ?_⟩
  obtain ⟨keys, out, h, hr, ha, hb, hb2, hhigh⟩ := volna_read_key_set_1k
    (sample_nfc MfClassicErrorNone MfClassicErrorNone MfClassicType1k MfClassicErrorNone
      scenario_image) ⟨blank_image⟩ rfl
  refine ⟨keys, out, h, hr, (ha 8 (by decide)).1, (hb 8 (by decide)).2 (by decide),
    (hb2 9 (by decide) (by decide)).1, ?_, (hhigh 40 (by decide)).1⟩
  rw [(hb2 9 (by decide) (by decide)).2]
  decide

/-- C4: when `volna_parse` succeeds, the card number in its text is
`(b0*2^24 + b1*2^16 + b2*2^8 + b3) AND 0x3FFFFFFF` for the bytes `b0..b3` at offsets
8..11 of block 33; that value is below `2^30` whatever the four bytes are, and the
bytes `00 00 27 11` give 10001. -/
theorem volna_parse_card_number (device : NfcDevice) (parsed_data out : String)
    (h : volna_parse device parsed_data = (true, out)) :
    (∃ balance hours minutes : Nat, out = volna_printf
        (((device.data.block 33 8).val * 2 ^ 24 + (device.data.block 33 9).val * 2 ^ 16
            + (device.data.block 33 10).val * 2 ^ 8 + (device.data.block 33 11).val)
            &&& 0x3FFFFFFF) balance hours minutes)
      ∧ (∀ b0 b1 b2 b3 : Byte,
          (b0.val * 2 ^ 24 + b1.val * 2 ^ 16 + b2.val * 2 ^ 8 + b3.val) &&& 0x3FFFFFFF < 2 ^ 30)
      ∧ (device.data.block 33 8 = 0x00 → device.data.block 33 9 = 0x00 →
          device.data.block 33 10 = 0x27 → device.data.block 33 11 = 0x11 →
          ∃ balance hours minutes : Nat, out = volna_printf 10001 balance hours minutes) := by
  rw [volna_parse_eq] at h
  split_ifs at h with hc
  · have ho := (Prod.mk.inj h).2
    refine ⟨⟨_, _, _, ho.symm⟩, ?_, ?_⟩
    · intro b0 b1 b2 b3
      exact Nat.and_lt_two_pow _ (by decide)
    · intro h0 h1 h2 h3
      rw [h0, h1, h2, h3] at ho
      exact ⟨_, _, _, ho.symm⟩
  · exact absurd (Prod.mk.inj h).1 (by decide)

/-- C4, on the scenario images: the bytes `00 00 27 11`, and also `C0 00 27 11` with the
two top bits set, are reported as card number 10001. -/
theorem volna_parse_card_number_witness :
    volna_parse ⟨scenario_image⟩ "" = (true, scenario_text)
    ∧ (∃ balance hours minutes : Nat, scenario_text = volna_printf 10001 balance hours minutes)
    ∧ volna_parse ⟨scenario_image_high⟩ "" = (true, scenario_text)
    ∧ (∃ balance hours minutes : Nat, scenario_text = volna_printf
        ((0xC0 * 2 ^ 24 + 0x00 * 2 ^ 16 + 0x27 * 2 ^ 8 + 0x11) &&& 0x3FFFFFFF)
        balance hours minutes) :=
  ⟨by decide,
    (volna_parse_card_number ⟨scenario_image⟩ "" scenario_text (by decide)).2.2
      (by decide) (by decide) (by decide) (by decide),
    by decide,
    (volna_parse_card_number ⟨scenario_image_high⟩ "" scenario_text (by decide)).1⟩

/-- C5: when `volna_parse` succeeds, the balance in its text is
`(b0*2^8 + b1) AND 0x7FFF` for the bytes `b0, b1` at offsets 8..9 of block 34; that
value is below `2^15` whatever the two bytes are, and the bytes `03 E8` give 1000. -/
theorem volna_parse_balance (device : NfcDevice) (parsed_data out : String)
    (h : volna_parse device parsed_data = (true, out)) :
    (∃ card_number hours minutes : Nat, out = volna_printf card_number
        (((device.data.block 34 8).val * 2 ^ 8 + (device.data.block 34 9).val) &&& 0x7FFF)
        hours minutes)
      ∧ (∀ b0 b1 : Byte, (b0.val * 2 ^ 8 + b1.val) &&& 0x7FFF < 2 ^ 15)
      ∧ (device.data.block 34 8 = 0x03 → device.data.block 34 9 = 0xE8 →
          ∃ card_number hours minutes : Nat,
            out = volna_printf card_number 1000 hours minutes) := by
  rw [volna_parse_eq] at h
  split_ifs at h with hc
  · have ho := (Prod.mk.inj h).2
    refine ⟨⟨_, _, _, ho.symm⟩, ?_, ?_⟩
    · intro b0 b1
      exact Nat.and_lt_two_pow _ (by decide)
    · intro h0 h1
      rw [h0, h1] at ho
      exact ⟨_, _, _, ho.symm⟩
  · exact absurd (Prod.mk.inj h).1 (by decide)

/-- C5, on the scenario image: the bytes `03 E8` are reported as balance 1000. -/
theorem volna_parse_balance_witness :
    volna_parse ⟨scenario_image⟩ "" = (true, scenario_text)
    ∧ ∃ card_number hours minutes : Nat,
        scenario_text = volna_printf card_number 1000 hours minutes :=
  ⟨by decide,
    (volna_parse_balance ⟨scenario_image⟩ "" scenario_text (by decide)).2.2
      (by decide) (by decide)⟩

/-- C6: when `volna_parse` succeeds, the hour and the minute in its text are `raw / 100`
and `raw % 100` exactly, for `raw = (b0*2^8 + b1) AND 0x1FFF` and the bytes `b0, b1` at
offsets 0..1 of block 1; `raw` is below `2^13` whatever the two bytes are; no range
correction is made (1275 gives hour 12 and minute 75), and the bytes `04 D2` give raw
1234, hour 12 and minute 34. -/
theorem volna_parse_last_charge (device : NfcDevice) (parsed_data out : String)
    (h : volna_parse device parsed_data = (true, out)) :
    (∃ card_number balance : Nat, out = volna_printf card_number balance
        ((((device.data.block 1 0).val * 2 ^ 8 + (device.data.block 1 1).val) &&& 0x1FFF) / 100)
        ((((device.data.block 1 0).val * 2 ^ 8 + (device.data.block 1 1).val) &&& 0x1FFF) % 100))
      ∧ (∀ b0 b1 : Byte, (b0.val * 2 ^ 8 + b1.val) &&& 0x1FFF < 2 ^ 13)
      ∧ (device.data.block 1 0 = 0x04 → device.data.block 1 1 = 0xFB →
          ((device.data.block 1 0).val * 2 ^ 8 + (device.data.block 1 1).val) &&& 0x1FFF = 1275
          ∧ ∃ card_number balance : Nat, out = volna_printf card_number balance 12 75)
      ∧ (device.data.block 1 0 = 0x04 → device.data.block 1 1 = 0xD2 →
          ((device.data.block 1 0).val * 2 ^ 8 + (device.data.block 1 1).val) &&& 0x1FFF = 1234
          ∧ ∃ card_number balance : Nat, out = volna_printf card_number balance 12 34) := by
  rw [volna_parse_eq] at h
  split_ifs at h with hc
  · have ho := (Prod.mk.inj h).2
    refine ⟨⟨_, _, ho.symm⟩, ?_, ?_, ?_⟩
    · intro b0 b1
      exact Nat.and_lt_two_pow _ (by decide)
    · intro h0 h1
      rw [h0, h1] at ho ⊢
      exact ⟨by decide, _, _, ho.symm⟩
    · intro h0 h1
      rw [h0, h1] at ho ⊢
      exact ⟨by decide, _, _, ho.symm⟩
  · exact absurd (Prod.mk.inj h).1 (by decide)

/-- C6, on the scenario images: the bytes `04 D2` give raw 1234, reported as hour 12 and
minute 34; the bytes `04 FB` give raw 1275, reported as hour 12 and minute 75. -/
theorem volna_parse_last_charge_witness :
    volna_parse ⟨scenario_image⟩ "" = (true, scenario_text)
    ∧ (∃ card_number balance : Nat, scenario_text = volna_printf card_number balance 12 34)
    ∧ volna_parse ⟨scenario_image_1275⟩ ""
        = (true, "\x1b#Volna\nCard number: 10001\nBalance: 1000 RUR\nLast charge at 12:75")
    ∧ (∃ card_number balance : Nat,
        "\x1b#Volna\nCard number: 10001\nBalance: 1000 RUR\nLast charge at 12:75"
          = volna_printf card_number balance 12 75) :=
  ⟨by decide,
    ((volna_parse_last_charge ⟨scenario_image⟩ "" scenario_text (by decide)).2.2.2
      (by decide) (by decide)).2,
    by decide,
    ((volna_parse_last_charge ⟨scenario_image_1275⟩ "" _ (by decide)).2.2.1
      (by decide) (by decide)).2⟩

/-- C7: when `volna_parse` succeeds, its text is the header `ESC # Volna` and the three
lines `Card number: <n>`, `Balance: <n> RUR`, `Last charge at <HH>:<MM>`, joined by single
newlines with nothing after the last line; the card number and the balance are in
unpadded decimal, and the hour and the minute are below 100 and printed as exactly two
decimal digits each.  A raw last charge of 1234 renders as `12:34`. -/
theorem volna_parse_text (device : NfcDevice) (parsed_data out : String)
    (h : volna_parse device parsed_data = (true, out)) :
    ∃ card_number balance raw : Nat,
      card_number = ((device.data.block 33 8).val * 2 ^ 24 + (device.data.block 33 9).val * 2 ^ 16
            + (device.data.block 33 10).val * 2 ^ 8 + (device.data.block 33 11).val)
            &&& 0x3FFFFFFF
      ∧ balance = ((device.data.block 34 8).val * 2 ^ 8 + (device.data.block 34 9).val) &&& 0x7FFF
      ∧ raw = ((device.data.block 1 0).val * 2 ^ 8 + (device.data.block 1 1).val) &&& 0x1FFF
      ∧ raw / 100 < 100 ∧ raw % 100 < 100
      ∧ out = String.intercalate "\n"
          ["\x1b#Volna",
           "Card number: " ++ Nat.repr card_number,
           "Balance: " ++ Nat.repr balance ++ " RUR",
           "Last charge at "
             ++ String.mk [Nat.digitChar (raw / 100 / 10), Nat.digitChar (raw / 100 % 10)]
             ++ ":"
             ++ String.mk [Nat.digitChar (raw % 100 / 10), Nat.digitChar (raw % 100 % 10)]]
      ∧ (raw = 1234 → ∃ head : String, out = head ++ "Last charge at 12:34") := by
  rw [volna_parse_eq] at h
  split_ifs at h with hc
  · have ho := (Prod.mk.inj h).2
    have hraw : ((device.data.block 1 0).val * 2 ^ 8 + (device.data.block 1 1).val) &&& 0x1FFF
        < 2 ^ 13 := Nat.and_lt_two_pow _ (by decide)
    have hh : (((device.data.block 1 0).val * 2 ^ 8 + (device.data.block 1 1).val) &&& 0x1FFF)
        / 100 < 100 := by omega
    have hm : (((device.data.block 1 0).val * 2 ^ 8 + (device.data.block 1 1).val) &&& 0x1FFF)
        % 100 < 100 := by omega
    refine ⟨_, _, _, rfl, rfl, rfl, hh, hm, ?_, ?_⟩
    · rw [← ho, volna_printf_lines _ _ _ _ hh hm]
    · intro h1234
      rw [h1234] at ho
      obtain ⟨head, hhead⟩ := volna_printf_tail_1234 (((device.data.block 33 8).val * 2 ^ 24
        + (device.data.block 33 9).val * 2 ^ 16 + (device.data.block 33 10).val * 2 ^ 8
        + (device.data.block 33 11).val) &&& 0x3FFFFFFF)
        (((device.data.block 34 8).val * 2 ^ 8 + (device.data.block 34 9).val) &&& 0x7FFF)
      exact ⟨head, by rw [← ho]; exact hhead⟩
  · exact absurd (Prod.mk.inj h).1 (by decide)

/-- C7, on the scenario image: the text is the four lines of the scenario, and it ends
with `Last charge at 12:34`. -/
theorem volna_parse_text_witness :
    volna_parse ⟨scenario_image⟩ "old" = (true, scenario_text)
    ∧ scenario_text = String.intercalate "\n"
        ["\x1b#Volna", "Card number: 10001", "Balance: 1000 RUR", "Last charge at 12:34"]
    ∧ ∃ head : String, scenario_text = head ++ "Last charge at 12:34" := by
  obtain ⟨card_number, balance, raw, h1, h2, h3, _, _, htext, htail⟩ :=
    volna_parse_text ⟨scenario_image⟩ "old" scenario_text (by decide)
  have e1 : card_number = 10001 := by rw [h1]; decide
  have e2 : balance = 1000 := by rw [h2]; decide
  have e3 : raw = 1234 := by rw [h3]; decide
  refine ⟨by decide, ?_, htail e3⟩
  rw [htext, e1, e2, e3]
  decide

/-- C8: `volna_verify` makes exactly one request to the transport, an authentication of
block 0 with key type A and the six-byte encoding of the table's key A for sector 0
(`0xD37C8F1793F7`); it returns true if and only if that request reports no error, hence
false for every error kind; and two transports that answer this one request alike give
the same result, whatever they answer to any other request. -/
theorem volna_verify_single_auth (nfc : Nfc) :
    volna_1k_keys[0]? = some { a := 0xD37C8F1793F7, b := 0 }
    ∧ nfc_util_num2bytes 0xD37C8F1793F7 6 (List.replicate 6 0)
        = [0xD3, 0x7C, 0x8F, 0x17, 0x93, 0xF7]
    ∧ (volna_verify nfc).2
        = [NfcRequest.auth 0 ⟨nfc_util_num2bytes 0xD37C8F1793F7 6 (List.replicate 6 0)⟩
            MfClassicKeyTypeA]
    ∧ ((volna_verify nfc).1 = true ↔
        nfc.mf_classic_poller_sync_auth 0 ⟨[0xD3, 0x7C, 0x8F, 0x17, 0x93, 0xF7]⟩
          MfClassicKeyTypeA = MfClassicErrorNone)
    ∧ (∀ e : MfClassicError, e ≠ MfClassicErrorNone →
        nfc.mf_classic_poller_sync_auth 0 ⟨[0xD3, 0x7C, 0x8F, 0x17, 0x93, 0xF7]⟩
          MfClassicKeyTypeA = e → (volna_verify nfc).1 = false)
    ∧ (∀ other : Nfc,
        other.mf_classic_poller_sync_auth 0 ⟨[0xD3, 0x7C, 0x8F, 0x17, 0x93, 0xF7]⟩
            MfClassicKeyTypeA
          = nfc.mf_classic_poller_sync_auth 0 ⟨[0xD3, 0x7C, 0x8F, 0x17, 0x93, 0xF7]⟩
            MfClassicKeyTypeA →
        volna_verify other = volna_verify nfc) := by
  have hb : mf_classic_get_first_block_num_of_sector 0 = 0 := rfl
  have hkey : nfc_util_num2bytes (volna_1k_keys.get ⟨0, by decide⟩).a MF_CLASSIC_KEY_SIZE
      MfClassicKey.zero.data = [0xD3, 0x7C, 0x8F, 0x17, 0x93, 0xF7] := by decide
  have henc : nfc_util_num2bytes 0xD37C8F1793F7 6 (List.replicate 6 0)
      = [0xD3, 0x7C, 0x8F, 0x17, 0x93, 0xF7] := by decide
  have hv : ∀ n : Nfc, volna_verify n =
      (if n.mf_classic_poller_sync_auth 0 ⟨[0xD3, 0x7C, 0x8F, 0x17, 0x93, 0xF7]⟩
          MfClassicKeyTypeA ≠ MfClassicErrorNone then false else true,
        [NfcRequest.auth 0 ⟨[0xD3, 0x7C, 0x8F, 0x17, 0x93, 0xF7]⟩ MfClassicKeyTypeA]) := by
    intro n
    simp only [volna_verify, hb, hkey]
    split_ifs <;> rfl
  refine ⟨rfl, henc, ?_, ?_, ?_, ?_⟩
  · rw [hv, henc]
  · rw [hv]
    by_cases hc : nfc.mf_classic_poller_sync_auth 0 ⟨[0xD3, 0x7C, 0x8F, 0x17, 0x93, 0xF7]⟩
        MfClassicKeyTypeA = MfClassicErrorNone
    · simp [hc]
    · simp [hc]
  · intro e he hauth
    rw [hv, hauth]
    simp [he]
  · intro other hsame
    rw [hv, hv, hsame]

/-- C8, on sample transports: a transport that accepts only the sector-0 request and
rejects every other authentication is verified; a transport that answers the request
with an authentication error or a timeout is not. -/
theorem volna_verify_single_auth_witness :
    sample_nfc_only_sector0.mf_classic_poller_sync_auth 4
        ⟨[0xD3, 0x7C, 0x8F, 0x17, 0x93, 0xF7]⟩ MfClassicKeyTypeA = MfClassicErrorAuth
    ∧ sample_nfc_only_sector0.mf_classic_poller_sync_auth 0
        ⟨[0xD3, 0x7C, 0x8F, 0x17, 0x93, 0xF7]⟩ MfClassicKeyTypeB = MfClassicErrorAuth
    ∧ (volna_verify sample_nfc_only_sector0).1 = true
    ∧ (volna_verify (sample_nfc MfClassicErrorAuth MfClassicErrorNone MfClassicType1k
        MfClassicErrorNone scenario_image)).1 = false
    ∧ (volna_verify (sample_nfc MfClassicErrorTimeout MfClassicErrorNone MfClassicType1k
        MfClassicErrorNone scenario_image)).1 = false :=
  ⟨by decide, by decide,
    (volna_verify_single_auth sample_nfc_only_sector0).2.2.2.1.2 (by decide),
    (volna_verify_single_auth _).2.2.2.2.1 MfClassicErrorAuth (by decide) rfl,
    (volna_verify_single_auth _).2.2.2.2.1 MfClassicErrorTimeout (by decide) rfl⟩

/-- C9 (what the code does on a Mini card): with a transport that detects a Mini card
and whose bulk read succeeds, `volna_read` returns false, but it has issued a bulk read
and replaced the image of the device record by the one read. -/
theorem volna_read_mini_reads_and_stores :
    (sample_nfc MfClassicErrorNone MfClassicErrorNone MfClassicTypeMini MfClassicErrorNone
        scenario_image).mf_classic_poller_sync_detect_type MfClassicTypeMini
      = (MfClassicErrorNone, MfClassicTypeMini)
    ∧ ∃ out : ReadOutcome,
        volna_read (sample_nfc MfClassicErrorNone MfClassicErrorNone MfClassicTypeMini
          MfClassicErrorNone scenario_image) ⟨blank_image⟩ = some out
        ∧ out.is_read = false
        ∧ out.requests.map NfcRequest.isRead = [false, true]
        ∧ out.device.data.type = MfClassicType1k
        ∧ (⟨blank_image⟩ : NfcDevice).data.type = MfClassicTypeMini
        ∧ out.device.data.block 35 0 = 0xD3
        ∧ (⟨blank_image⟩ : NfcDevice).data.block 35 0 = 0 := by
  refine ⟨rfl, _, rfl, rfl, rfl, rfl, rfl, ?_, ?_⟩
  · decide
  · decide

/-- C10: when detection reports an error, or the bulk read that `volna_read` issues
reports an error, `volna_read` returns false and the device record is the one it was
given; when detection reports an error the only request made is the detection. -/
theorem volna_read_fails_closed (nfc : Nfc) (device : NfcDevice)
    (hfail : (nfc.mf_classic_poller_sync_detect_type MfClassicTypeMini).1 ≠ MfClassicErrorNone
      ∨ ∃ keys : MfClassicDeviceKeys,
          volna_read_keys (nfc.mf_classic_poller_sync_detect_type MfClassicTypeMini).2 = some keys
          ∧ (nfc.mf_classic_poller_sync_read keys { device.data with
              type := (nfc.mf_classic_poller_sync_detect_type MfClassicTypeMini).2 }).1
            ≠ MfClassicErrorNone) :
    ∃ out : ReadOutcome, volna_read nfc device = some out
      ∧ out.is_read = false
      ∧ out.device = device
      ∧ ((nfc.mf_classic_poller_sync_detect_type MfClassicTypeMini).1 ≠ MfClassicErrorNone →
          out.requests = [NfcRequest.detect_type]) := by
  by_cases hdet : (nfc.mf_classic_poller_sync_detect_type MfClassicTypeMini).1 = MfClassicErrorNone
  · rcases hfail with hne | ⟨keys, hkeys, hread⟩
    · exact absurd hdet hne
    · have h := volna_read_of_keys nfc device keys hdet hkeys
      rw [if_pos hread] at h
      exact ⟨_, h, rfl, rfl, fun hne => absurd hdet hne⟩
  · exact ⟨_, volna_read_of_detect_error nfc device hdet, rfl, rfl, fun _ => rfl⟩

/-- C10, on sample transports: a detection timeout, and a bulk read of a 1K card that
reports a partial read, both leave the blank device record as it was. -/
theorem volna_read_fails_closed_witness :
    (∃ out : ReadOutcome,
      volna_read (sample_nfc MfClassicErrorNone MfClassicErrorTimeout MfClassicType1k
        MfClassicErrorNone scenario_image) ⟨blank_image⟩ = some out
      ∧ out.is_read = false ∧ out.device = ⟨blank_image⟩
      ∧ out.requests.map NfcRequest.isRead = [false])
    ∧ (∃ out : ReadOutcome,
      volna_read (sample_nfc MfClassicErrorNone MfClassicErrorNone MfClassicType1k
        MfClassicErrorPartialRead scenario_image) ⟨blank_image⟩ = some out
      ∧ out.is_read = false ∧ out.device = ⟨blank_image⟩) := by
  constructor
  · obtain ⟨out, h, h1, h2, h3⟩ := volna_read_fails_closed
      (sample_nfc MfClassicErrorNone MfClassicErrorTimeout MfClassicType1k
        MfClassicErrorNone scenario_image) ⟨blank_image⟩ (Or.inl (by decide))
    exact ⟨out, h, h1, h2, by rw [h3 (by decide)]; rfl⟩
  · obtain ⟨out, h, h1, h2, _⟩ := volna_read_fails_closed
      (sample_nfc MfClassicErrorNone MfClassicErrorNone MfClassicType1k
        MfClassicErrorPartialRead scenario_image) ⟨blank_image⟩
      (Or.inr ⟨(volna_read_keys MfClassicType1k).get volna_read_keys_1k_isSome,
        by simp [sample_nfc], by decide⟩)
    exact ⟨out, h, h1, h2⟩

/-- C11: the table `volna_1k_keys` has exactly 16 entries; the entries 0, 8 and 12 are
key A `0xD37C8F1793F7` with key B 0; every other entry below 16 has key A and key B both
`0x2B787A063D5D`; the two keys differ, and every key of the table is below `2^48`. -/
theorem volna_1k_keys_table :
    volna_1k_keys.length = 16
    ∧ (∀ i : Nat, i = 0 ∨ i = 8 ∨ i = 12 →
        volna_1k_keys[i]? = some { a := 0xD37C8F1793F7, b := 0 })
    ∧ (∀ i : Nat, i < 16 → ¬ (i = 0 ∨ i = 8 ∨ i = 12) →
        volna_1k_keys[i]? = some { a := 0x2B787A063D5D, b := 0x2B787A063D5D })
    ∧ (0xD37C8F1793F7 : Nat) ≠ 0x2B787A063D5D
    ∧ (∀ pair : MfClassicKeyPair, pair ∈ volna_1k_keys → pair.a < 2 ^ 48 ∧ pair.b < 2 ^ 48) := by
  refine ⟨rfl, ?_, ?_, by decide, by decide⟩
  · rintro i (h | h | h) <;> subst h <;> rfl
  · intro i hi hne
    interval_cases i <;> first | exact absurd (by decide) hne | rfl

/-- C12: whenever `volna_parse` returns false, the buffer `parsed_data` after the call is
the buffer before the call. -/
theorem volna_parse_false_keeps_buffer (device : NfcDevice) (parsed_data : String)
    (h : (volna_parse device parsed_data).1 = false) :
    (volna_parse device parsed_data).2 = parsed_data := by
  rw [volna_parse_eq] at h ⊢
  split_ifs at h ⊢
  rfl

/-- C12, on sample images: a Mini image, a 1K image with a foreign sector-8 key and a 1K
image with a zero card number are all rejected with the buffer `old` untouched. -/
theorem volna_parse_false_keeps_buffer_witness :
    (volna_parse ⟨blank_image⟩ "old").1 = false
    ∧ (volna_parse ⟨blank_image⟩ "old").2 = "old"
    ∧ (volna_parse ⟨image_foreign_key⟩ "old").2 = "old"
    ∧ (volna_parse ⟨image_zero_number⟩ "old").2 = "old" :=
  ⟨by decide, volna_parse_false_keeps_buffer ⟨blank_image⟩ "old" (by decide),
    volna_parse_false_keeps_buffer ⟨image_foreign_key⟩ "old" (by decide),
    volna_parse_false_keeps_buffer ⟨image_zero_number⟩ "old" (by decide)⟩

/-- C13: when `volna_parse` succeeds, the hour and the minute it prints, taken through
their 8-bit variables, are at most 81 and at most 99; the 8-bit store changes neither,
and `100 * hour + minute` is the masked raw value, which is at most 8191. -/
theorem volna_parse_hour_minute_range (device : NfcDevice) (parsed_data out : String)
    (h : volna_parse device parsed_data = (true, out)) :
    ∃ card_number balance raw hours minutes : Nat,
      raw = ((device.data.block 1 0).val * 2 ^ 8 + (device.data.block 1 1).val) &&& 0x1FFF
      ∧ hours = (raw / 100) % 2 ^ 8
      ∧ minutes = (raw % 100) % 2 ^ 8
      ∧ out = volna_printf card_number balance hours minutes
      ∧ raw ≤ 8191
      ∧ hours ≤ 81 ∧ minutes ≤ 99
      ∧ hours = raw / 100 ∧ minutes = raw % 100
      ∧ 100 * hours + minutes = raw := by
  rw [volna_parse_eq] at h
  split_ifs at h with hc
  · have ho := (Prod.mk.inj h).2
    have hraw : ((device.data.block 1 0).val * 2 ^ 8 + (device.data.block 1 1).val) &&& 0x1FFF
        < 2 ^ 13 := Nat.and_lt_two_pow _ (by decide)
    refine ⟨((device.data.block 33 8).val * 2 ^ 24 + (device.data.block 33 9).val * 2 ^ 16
        + (device.data.block 33 10).val * 2 ^ 8 + (device.data.block 33 11).val) &&& 0x3FFFFFFF,
      ((device.data.block 34 8).val * 2 ^ 8 + (device.data.block 34 9).val) &&& 0x7FFF,
      _, _, _, rfl, rfl, rfl, ?_, ?_, ?_, ?_, ?_, ?_, ?_⟩
    · rw [← ho]
      congr 1 <;> omega
    all_goals omega
  · exact absurd (Prod.mk.inj h).1 (by decide)

/-- C13, on the scenario images: raw 1234 is printed as hour 12 and minute 34, raw 1275
as hour 12 and minute 75, both within 0..99. -/
theorem volna_parse_hour_minute_range_witness :
    volna_parse ⟨scenario_image⟩ "" = (true, scenario_text)
    ∧ (∃ card_number balance hours minutes : Nat,
        scenario_text = volna_printf card_number balance hours minutes
        ∧ hours ≤ 81 ∧ minutes ≤ 99 ∧ 100 * hours + minutes = 1234)
    ∧ (∃ card_number balance hours minutes : Nat,
        (volna_parse ⟨scenario_image_1275⟩ "").2 = volna_printf card_number balance hours minutes
        ∧ hours ≤ 81 ∧ minutes ≤ 99 ∧ 100 * hours + minutes = 1275) := by
  refine ⟨by decide, ?_, ?_⟩
  · obtain ⟨cn, bal, raw, hours, minutes, hr, _, _, ho, _, hh, hm, _, _, hsum⟩ :=
      volna_parse_hour_minute_range ⟨scenario_image⟩ "" scenario_text (by decide)
    have e : raw = 1234 := by rw [hr]; decide
    exact ⟨cn, bal, hours, minutes, ho, hh, hm, by rw [hsum, e]⟩
  · obtain ⟨cn, bal, raw, hours, minutes, hr, _, _, ho, _, hh, hm, _, _, hsum⟩ :=
      volna_parse_hour_minute_range ⟨scenario_image_1275⟩ ""
        (volna_parse ⟨scenario_image_1275⟩ "").2 (by decide)
    have e : raw = 1275 := by rw [hr]; decide
    exact ⟨cn, bal, hours, minutes, ho, hh, hm, by rw [hsum, e]⟩

/-- C14 (counterexample): a Mini image, a 1K image with a foreign sector-8 key and a 1K
image with the data key and a zero card number are rejected for three different causes,
and the three calls have the same outcome: false, with the buffer as it was. -/
theorem volna_parse_failures_same_outcome :
    blank_image.type ≠ MfClassicType1k
    ∧ (image_foreign_key.type = MfClassicType1k
        ∧ nfc_util_bytes2num (mf_classic_get_sector_trailer_by_sector image_foreign_key 8).key_a.data
            MF_CLASSIC_KEY_SIZE ≠ 0xD37C8F1793F7)
    ∧ (image_zero_number.type = MfClassicType1k
        ∧ nfc_util_bytes2num (mf_classic_get_sector_trailer_by_sector image_zero_number 8).key_a.data
            MF_CLASSIC_KEY_SIZE = 0xD37C8F1793F7
        ∧ ((image_zero_number.block 33 8).val * 2 ^ 24 + (image_zero_number.block 33 9).val * 2 ^ 16
            + (image_zero_number.block 33 10).val * 2 ^ 8 + (image_zero_number.block 33 11).val)
            &&& 0x3FFFFFFF = 0)
    ∧ volna_parse ⟨blank_image⟩ "old" = volna_parse ⟨image_foreign_key⟩ "old"
    ∧ volna_parse ⟨image_foreign_key⟩ "old" = volna_parse ⟨image_zero_number⟩ "old"
    ∧ volna_parse ⟨image_zero_number⟩ "old" = (false, "old") := by
  decide

/-- C14 (amended): `volna_parse` reports every failure the same way: when the variant is
not 1K, or the sector-8 trailer key is not the table's key, or the masked card number is
zero, the call returns false and leaves the buffer as it was, so the outcome does not
tell the causes apart. -/
theorem volna_parse_failure_uniform (device : NfcDevice) (parsed_data : String)
    (hcause : device.data.type ≠ MfClassicType1k
      ∨ (device.data.block 35 0).val * 2 ^ 40 + (device.data.block 35 1).val * 2 ^ 32
          + (device.data.block 35 2).val * 2 ^ 24 + (device.data.block 35 3).val * 2 ^ 16
          + (device.data.block 35 4).val * 2 ^ 8 + (device.data.block 35 5).val
          ≠ 0xD37C8F1793F7
      ∨ ((device.data.block 33 8).val * 2 ^ 24 + (device.data.block 33 9).val * 2 ^ 16
          + (device.data.block 33 10).val * 2 ^ 8 + (device.data.block 33 11).val)
          &&& 0x3FFFFFFF = 0) :
    volna_parse device parsed_data = (false, parsed_data) := by
  rw [volna_parse_eq]
  apply if_neg
  rintro ⟨h1, h2, h3⟩
  rcases hcause with h | h | h
  · exact h h1
  · exact h h2
  · exact h3 h

/-- C14 (amended), on sample images: the three causes, one image each, all give
`(false, "old")`. -/
theorem volna_parse_failure_uniform_witness :
    volna_parse ⟨blank_image⟩ "old" = (false, "old")
    ∧ volna_parse ⟨image_foreign_key⟩ "old" = (false, "old")
    ∧ volna_parse ⟨image_zero_number⟩ "old" = (false, "old") :=
  ⟨volna_parse_failure_uniform ⟨blank_image⟩ "old" (Or.inl (by decide)),
    volna_parse_failure_uniform ⟨image_foreign_key⟩ "old" (Or.inr (Or.inl (by decide))),
    volna_parse_failure_uniform ⟨image_zero_number⟩ "old" (Or.inr (Or.inr (by decide)))⟩

/-- C15 (what the code does on a 4K card): the table has 16 entries and a 4K card has 40
sectors; the key loop is in range for Mini and 1K, but for 4K it completes the sixteen
iterations 0..15 and then reads `volna_1k_keys[16]`, past the end of the table, so
`volna_read` faults before it issues the bulk read. -/
theorem volna_read_4k_reads_past_table :
    volna_1k_keys.length = 16
    ∧ mf_classic_get_total_sectors_num MfClassicType4k = 40
    ∧ (volna_read_keys MfClassicTypeMini).isSome = true
    ∧ (volna_read_keys MfClassicType1k).isSome = true
    ∧ (∃ keys : MfClassicDeviceKeys,
        (List.range 16).foldlM volna_read_keys_body volna_read_keys_init = some keys
        ∧ volna_1k_keys[16]? = none
        ∧ volna_read_keys_body keys 16 = none)
    ∧ volna_read_keys MfClassicType4k = none
    ∧ (sample_nfc MfClassicErrorNone MfClassicErrorNone MfClassicType4k MfClassicErrorNone
        scenario_image).mf_classic_poller_sync_detect_type MfClassicTypeMini
        = (MfClassicErrorNone, MfClassicType4k)
    ∧ (volna_read (sample_nfc MfClassicErrorNone MfClassicErrorNone MfClassicType4k
        MfClassicErrorNone scenario_image) ⟨blank_image⟩).isNone = true := by
  refine ⟨rfl, rfl, by decide, by decide, ⟨_, rfl, rfl, rfl⟩, by decide, rfl, rfl⟩

/-- C16: two images that agree on the variant, on bytes 0..5 of block 35, on bytes 8..11
of block 33, on bytes 8..9 of block 34 and on bytes 0..1 of block 1 give the same result
of `volna_parse`, boolean and buffer, whatever their other bytes are. -/
theorem volna_parse_depends_on_decoded_fields (device other : NfcDevice)
    (parsed_data : String)
    (htype : device.data.type = other.data.type)
    (hkey : ∀ k : Nat, k < 6 → device.data.block 35 k = other.data.block 35 k)
    (hnumber : ∀ k : Nat, 8 ≤ k → k < 12 → device.data.block 33 k = other.data.block 33 k)
    (hbalance : ∀ k : Nat, 8 ≤ k → k < 10 → device.data.block 34 k = other.data.block 34 k)
    (hcharge : ∀ k : Nat, k < 2 → device.data.block 1 k = other.data.block 1 k) :
    volna_parse device parsed_data = volna_parse other parsed_data := by
  rw [volna_parse_eq, volna_parse_eq, htype,
    hkey 0 (by decide), hkey 1 (by decide), hkey 2 (by decide), hkey 3 (by decide),
    hkey 4 (by decide), hkey 5 (by decide),
    hnumber 8 (by decide) (by decide), hnumber 9 (by decide) (by decide),
    hnumber 10 (by decide) (by decide), hnumber 11 (by decide) (by decide),
    hbalance 8 (by decide) (by decide), hbalance 9 (by decide) (by decide),
    hcharge 0 (by decide), hcharge 1 (by decide)]

/-- C16, on sample images: the scenario image and its repainted copy differ in the
sector-0 trailer, in the sector-8 key B and access bits and elsewhere, and give the same
result. -/
theorem volna_parse_depends_on_decoded_fields_witness :
    scenario_image.block 3 0 ≠ scenario_image_repainted.block 3 0
    ∧ scenario_image.block 35 6 ≠ scenario_image_repainted.block 35 6
    ∧ scenario_image.block 35 10 ≠ scenario_image_repainted.block 35 10
    ∧ scenario_image.block 33 0 ≠ scenario_image_repainted.block 33 0
    ∧ volna_parse ⟨scenario_image⟩ "old" = volna_parse ⟨scenario_image_repainted⟩ "old"
    ∧ volna_parse ⟨scenario_image_repainted⟩ "old" = (true, scenario_text) := by
  have h := volna_parse_depends_on_decoded_fields ⟨scenario_image⟩ ⟨scenario_image_repainted⟩
    "old" rfl (by decide) (by decide) (by decide) (by decide)
  refine ⟨by decide, by decide, by decide, by decide, h, ?_⟩
  rw [← h]
  decide

end Volna

namespace RgbBacklight

/-! ## The settings functions -/

theorem rgb_backlight_wait_storage_isSome (furi_record_exists : Nat → Bool) :
    ∀ fuel timeout : Nat, timeout ≤ 150 → 151 - timeout ≤ fuel →
      (rgb_backlight_wait_storage furi_record_exists fuel timeout).isSome = true := by
  intro fuel
  induction fuel with
  | zero => intro timeout h1 h2; omega
  | succ fuel ih =>
    intro timeout h1 h2
    unfold rgb_backlight_wait_storage
    by_cases he : furi_record_exists timeout = true
    · simp [he]
    · have hmod : (timeout + 1) % 2 ^ 8 = timeout + 1 := by omega
      simp only [he, hmod]
      by_cases hgt : timeout + 1 > 150
      · simp [hgt]
      · simp only [hgt, if_false]
        exact ih (timeout + 1) (by omega) (by omega)

theorem rgb_backlight_load_settings_isSome (env : LoadAnswers) (s : RGBBacklightSettings) :
    (rgb_backlight_load_settings env s).isSome = true := by
  unfold rgb_backlight_load_settings
  have hw := rgb_backlight_wait_storage_isSome env.furi_record_exists 152 0 (by decide)
    (by decide)
  by_cases hb : env.boot_mode_normal = false
  · rw [if_pos hb]
    rfl
  · rw [if_neg hb]
    cases hwait : rgb_backlight_wait_storage env.furi_record_exists 152 0 with
    | none =>
      rw [hwait] at hw
      exact absurd hw (by decide)
    | some found => cases found <;> rfl

/-- C17: the table `colors` has 14 entries; after `rgb_backlight_set_color` the field
`display_color_index` is the argument when the argument is at most 13 and 0 otherwise,
and `version`, `custom_r`, `custom_g`, `custom_b` and `settings_is_loaded` are as
before. -/
theorem rgb_backlight_set_color_clamps (s : RGBBacklightSettings) (color_index : Fin 256) :
    colors.length = 14
    ∧ (rgb_backlight_set_color s color_index).display_color_index
        = (if color_index.val ≤ 13 then color_index else 0)
    ∧ (rgb_backlight_set_color s color_index).version = s.version
    ∧ (rgb_backlight_set_color s color_index).custom_r = s.custom_r
    ∧ (rgb_backlight_set_color s color_index).custom_g = s.custom_g
    ∧ (rgb_backlight_set_color s color_index).custom_b = s.custom_b
    ∧ (rgb_backlight_set_color s color_index).settings_is_loaded = s.settings_is_loaded := by
  refine ⟨rfl, ?_, rfl, rfl, rfl, rfl, rfl⟩
  have hcount : (rgb_backlight_get_color_count : Int) = 14 := rfl
  simp only [rgb_backlight_set_color, hcount]
  by_cases h : color_index.val ≤ 13
  · have h2 : ¬ ((color_index.val : Int) > 14 - 1) := by omega
    simp [h, h2]
  · have h2 : (color_index.val : Int) > 14 - 1 := by omega
    simp [h, h2]

/-- C17, on sample arguments: from the initial settings, 13 is kept, 14 and 255 become 0,
and the custom colour stays 254. -/
theorem rgb_backlight_set_color_clamps_witness :
    (rgb_backlight_set_color rgb_settings 13).display_color_index = 13
    ∧ (rgb_backlight_set_color rgb_settings 14).display_color_index = 0
    ∧ (rgb_backlight_set_color rgb_settings 255).display_color_index = 0
    ∧ (rgb_backlight_set_color rgb_settings 255).custom_r = 254 :=
  ⟨(rgb_backlight_set_color_clamps rgb_settings 13).2.1,
    (rgb_backlight_set_color_clamps rgb_settings 14).2.1,
    (rgb_backlight_set_color_clamps rgb_settings 255).2.1,
    (rgb_backlight_set_color_clamps rgb_settings 255).2.2.2.1⟩

/-- C18 (what the code does on a settings file with index 200): from the initial
settings, one call of `rgb_backlight_load_settings` on a normal boot with a settings file
of the right size and version copies the file's `display_color_index` 200 into
`rgb_settings`; 200 is not below 14, and the read of `colors` that
`rgb_backlight_update` then makes is past the end of the table.  Calls of
`rgb_backlight_set_color` before the load do not prevent it. -/
theorem rgb_backlight_load_settings_keeps_bad_index :
    answers_index_200.settings.version.val = RGB_BACKLIGHT_SETTINGS_VERSION
    ∧ answers_index_200.bytes_count = settings_size
    ∧ run [Call.load_settings answers_index_200] rgb_settings = some settings_index_200
    ∧ run [Call.set_color 3, Call.set_custom_color 10 0, Call.load_settings answers_index_200]
          rgb_settings = some settings_index_200
    ∧ settings_index_200.display_color_index = 200
    ∧ ¬ (settings_index_200.display_color_index.val < 14)
    ∧ colors.length = 14
    ∧ colors[settings_index_200.display_color_index.val]? = none
    ∧ rgb_backlight_update_color settings_index_200 = none := by
  decide

end RgbBacklight
